import Mathlib

/-!
Shallow embedding of the H200 price pipeline publication scripts
(push_to_supabase.py, push_to_contract.py,
Push_h200_provider_specific_markets.py) and of the scraper plausibility
and normalization logic (gcp_h200_scraper.py, hyperbolic_h200_scraper.py,
acecloud_h200_scraper.py).

Python floats are modelled as exact rationals, fallible operations as
Except, and the external world (database query results, insert outcomes,
transaction confirmation) as explicit parameters describing the outcome
the environment produced.
-/

namespace PushToSupabase

/-- Result of float(record[index_price]) for each fetched history record:
none models a value on which float() raises (malformed record). -/
abbrev HistData := List (Option ℚ)

/-- Converts every fetched record with float(); the first malformed record
makes the whole list comprehension raise, modelled as none. -/
def parseFloats : HistData → Option (List ℚ)
  | [] => some []
  | none :: _ => none
  | some x :: rest => (parseFloats rest).map (fun l => x :: l)

/-- The limit(2) descending-order query over h200_index_prices: the fetch
returns the two most recent index_price values of the table, which is
given here already ordered by created_at descending. -/
def fetchLastTwo (table : HistData) : Except String HistData :=
  Except.ok (table.take 2)

/-- validate_price from push_to_supabase.py. The first argument is the
outcome of the history query (Except.error models an exception raised
while retrieving history). new_price is index_data.get with key
final_index_price, hence an Option: comparing none against the numeric
bounds raises in Python, which the except handler turns into True.
The tolerance default in the source is 0.25. -/
def validate_price (fetch : Except String HistData) (new_price : Option ℚ)
    (tolerance : ℚ) : Bool :=
  match fetch with
  | Except.error _ => true
  | Except.ok data =>
    if data.length < 2 then
      true
    else
      match parseFloats data with
      | none => true
      | some last_prices =>
        let avg_price := last_prices.sum / (last_prices.length : ℚ)
        let lower_bound := avg_price * (1 - tolerance)
        let upper_bound := avg_price * (1 + tolerance)
        match new_price with
        | none => true
        | some p => decide (lower_bound ≤ p ∧ p ≤ upper_bound)

/-- The fields of the loaded index JSON that push_to_supabase reads.
Numeric fields are Options because index_data.get returns None when the
key is absent. Only the provider name of each hyperscaler detail matters
for which rows get written, so details are kept as provider names. -/
structure IndexData where
  final_index_price : Option ℚ
  hyperscaler_component : Option ℚ
  neocloud_component : Option ℚ
  hyperscaler_details : List String
deriving DecidableEq, Repr

/-- The visible state of the two Supabase tables: the index_price column
of every inserted h200_index_prices row, and how many
h200_provider_prices rows exist. -/
structure DBState where
  indexRows : List (Option ℚ)
  providerRows : Nat
deriving DecidableEq, Repr

/-- Outcome of the snapshot insert call: error models a raised exception
(insert did not happen), ok none models a response with empty data, and
ok (some id) a response carrying the new row id. -/
abbrev SnapOutcome := Except String (Option Nat)

/-- Outcome of the provider-rows insert call: error models a raised
exception, ok b models a response whose data is nonempty iff b. -/
abbrev ProvOutcome := Except String Bool

/-- push_hyperscaler_prices from push_to_supabase.py: builds one record
per hyperscaler detail, inserts them, catches every exception internally
and reports it as a warning (returning false). -/
def push_hyperscaler_prices (outcome : ProvOutcome) (details : List String)
    (st : DBState) : Bool × DBState :=
  if details.length = 0 then
    (false, st)
  else
    match outcome with
    | Except.error _ => (false, st)
    | Except.ok dataReturned =>
        (dataReturned, { st with providerRows := st.providerRows + details.length })

/-- push_to_supabase from push_to_supabase.py (the body inside its outer
try, after credentials and library import succeed). Control flow of the
source: read final_index_price, run validate_price and return False when
it rejects; print the progress lines formatting index_price with :.2f and
the two components with :.4f -- when any of those is None the format
raises TypeError, the outer except catches it and returns False before
any insert; then insert the snapshot row; on a raised insert return
False; on empty response data return False; otherwise call
push_hyperscaler_prices, ignore its result, and return True. -/
def push_to_supabase (fetch : Except String HistData) (idx : IndexData)
    (snap : SnapOutcome) (prov : ProvOutcome) (st : DBState) : Bool × DBState :=
  let new_price := idx.final_index_price
  if validate_price fetch new_price (1/4) = false then
    (false, st)
  else if (idx.final_index_price.isSome && idx.hyperscaler_component.isSome
      && idx.neocloud_component.isSome) = false then
    (false, st)
  else
    match snap with
    | Except.error _ => (false, st)
    | Except.ok none =>
        (false, { st with indexRows := st.indexRows ++ [new_price] })
    | Except.ok (some _) =>
        let st1 := { st with indexRows := st.indexRows ++ [new_price] }
        let st2 := (push_hyperscaler_prices prov idx.hyperscaler_details st1).2
        (true, st2)

end PushToSupabase

namespace ProviderMarkets

/-- PRICE_DECIMALS from Push_h200_provider_specific_markets.py. -/
def PRICE_DECIMALS : Nat := 18

/-- Python int() truncates toward zero. -/
def pyInt (q : ℚ) : Int := if 0 ≤ q then q.floor else q.ceil

/-- The provider table H200_PROVIDERS: key and asset_id (keccak256 hash of
the provider identifier), in source order. -/
def H200_PROVIDERS : List (String × String) :=
  [("ORACLE", "0x5d5f627ba6daf1427a1559c3200cbe7ebf105d0df0ec1610c6b89d54a314bf51"),
   ("AWS", "0xb377854a672b5274c99b24e7fe27d9661c60c8b697ca4f974208162655716b3e"),
   ("COREWEAVE", "0xa05f2ef65a5f11da36153346f35e9cdb554962e858a95c7f79075cd3a4c6ddfd"),
   ("GCP", "0x0ba2d87db04ca970c41ab4334516ce12e74356d71ee96e228fb1ba5d519aaaf4"),
   ("AZURE", "0x12b283ae476f0251b7a6eaa8d414a3260644e167d9253ef1e72d49e2c8291e61")]

/-- The contract call a transaction carries: either updatePrice with one
asset id and scaled price, or batchUpdatePrices with two parallel arrays.
The gas limit passed alongside is recorded as well. -/
inductive OracleCall where
  | single (assetId : String) (price : Int) (gasLimit : Nat)
  | batch (assetIds : List String) (prices : List Int) (gasLimit : Nat)
deriving DecidableEq, Repr

/-- Receipt returned by wait_for_transaction_receipt. -/
structure TxReceipt where
  status : Nat
  gasUsed : Nat
deriving DecidableEq, Repr

/-- What the network did with the submitted transaction: timeout models
wait_for_transaction_receipt exceeding its limit and raising
TimeExhausted; confirmed carries the receipt. -/
inductive WaitOutcome where
  | timeout
  | confirmed (r : TxReceipt)
deriving DecidableEq, Repr

/-- The timeout passed to wait_for_transaction_receipt in both
_send_transaction implementations (push_to_contract.py line 149 and
Push_h200_provider_specific_markets.py line 208): 180 seconds. -/
def tx_receipt_timeout_seconds : Nat := 180

/-- _build_dynamic_fee from push_to_contract.py and
Push_h200_provider_specific_markets.py (identical bodies): base fee from
the network, priority fee fixed at 1 gwei, max fee the larger of twice
the base fee and twice the priority fee. Amounts in wei. -/
def _build_dynamic_fee (base_fee : Nat) : Nat × Nat :=
  let max_priority := 10 ^ 9
  let max_fee := max (base_fee * 2) (max_priority * 2)
  (max_fee, max_priority)

/-- _send_transaction: builds, signs and submits the given call, then
blocks in wait_for_transaction_receipt for up to 180 seconds. A timeout
raises (Except.error propagates to the caller); a confirmed transaction
returns the hash and the receipt, whatever the receipt status is. -/
def _send_transaction (_call : OracleCall) (wait : WaitOutcome)
    (txHash : String) : Except String (String × TxReceipt) :=
  match wait with
  | WaitOutcome.timeout => Except.error "TimeExhausted"
  | WaitOutcome.confirmed r => Except.ok (txHash, r)

/-- update_single_price from Push_h200_provider_specific_markets.py:
looks the provider up (raising ValueError when unknown), scales the price
by 10 ** PRICE_DECIMALS, sends an updatePrice transaction with gas limit
100000, prints the receipt status (Success or Failed) and returns the
transaction hash. The returned pair also records the submitted call. The
update_price method of push_to_contract.py has the same send-and-return
structure for the fixed H200 asset. -/
def update_single_price (provider : String) (price_usd : ℚ)
    (wait : WaitOutcome) (txHash : String) : Except String (String × OracleCall) :=
  match H200_PROVIDERS.lookup provider with
  | none => Except.error ("Unknown provider: " ++ provider)
  | some assetId =>
    let price_scaled := pyInt (price_usd * 10 ^ PRICE_DECIMALS)
    let call := OracleCall.single assetId price_scaled 100000
    match _send_transaction call wait txHash with
    | Except.error e => Except.error e
    | Except.ok (h, _r) => Except.ok (h, call)

/-- The loop of batch_update_prices: walks the pairs in order, appending
the asset id and the scaled price of each to two arrays, raising
ValueError at the first unknown provider. -/
def buildBatchArrays : List (String × ℚ) → Except String (List String × List Int)
  | [] => Except.ok ([], [])
  | (provider, price_usd) :: rest =>
    match H200_PROVIDERS.lookup provider with
    | none => Except.error ("Unknown provider: " ++ provider)
    | some assetId =>
      match buildBatchArrays rest with
      | Except.error e => Except.error e
      | Except.ok (aids, ps) =>
          Except.ok (assetId :: aids, pyInt (price_usd * 10 ^ PRICE_DECIMALS) :: ps)

/-- batch_update_prices from Push_h200_provider_specific_markets.py:
builds the two parallel arrays, sends one batchUpdatePrices transaction
with gas limit 50000 + 30000 per asset, prints the receipt status and
returns the transaction hash (paired here with the submitted call). -/
def batch_update_prices (pairs : List (String × ℚ)) (wait : WaitOutcome)
    (txHash : String) : Except String (String × OracleCall) :=
  match buildBatchArrays pairs with
  | Except.error e => Except.error e
  | Except.ok (aids, ps) =>
    let call := OracleCall.batch aids ps (50000 + aids.length * 30000)
    match _send_transaction call wait txHash with
    | Except.error e => Except.error e
    | Except.ok (h, _r) => Except.ok (h, call)

/-- The dispatch in main (lines 626-637): one pair in prices_to_update
takes update_single_price on that pair, anything else goes through
batch_update_prices. main only reaches this point with a nonempty
dictionary. -/
def executeUpdate (pairs : List (String × ℚ)) (wait : WaitOutcome)
    (txHash : String) : Except String (String × OracleCall) :=
  if pairs.length = 1 then
    match pairs with
    | (provider, price_usd) :: _ => update_single_price provider price_usd wait txHash
    | [] => Except.error "unreachable"
  else
    batch_update_prices pairs wait txHash

end ProviderMarkets

namespace Scrapers

/-- One entry of the price dictionary handed to _validate_prices: whether
the variant key contains the word Error (such entries are skipped), and
the numeric value the regex search extracts from the price string, if one
parses. -/
structure PriceEntry where
  variantHasError : Bool
  parsed : Option ℚ
deriving DecidableEq, Repr

/-- _validate_prices from gcp_h200_scraper.py: returns True as soon as
one non-Error entry parses to a price with 5 < price < 25, and False when
the dictionary is empty or no entry qualifies. -/
def gcp_validate_prices (prices : List PriceEntry) : Bool :=
  prices.any fun e =>
    !e.variantHasError &&
      match e.parsed with
      | some price => decide (5 < price) && decide (price < 25)
      | none => false

/-- _validate_prices from hyperbolic_h200_scraper.py: same shape with the
range 1.0 < price < 10.0. -/
def hyperbolic_validate_prices (prices : List PriceEntry) : Bool :=
  prices.any fun e =>
    !e.variantHasError &&
      match e.parsed with
      | some price => decide (1 < price) && decide (price < 10)
      | none => false

/-- The acceptance test in the strategy loop of gcp get_h200_prices:
a method result is kept only when it is nonempty and _validate_prices
accepts it; otherwise the scraper moves on and, with every method
exhausted, yields no observation. -/
def gcp_method_accepts (prices : List PriceEntry) : Bool :=
  !prices.isEmpty && gcp_validate_prices prices

/-- hours_per_month from acecloud_h200_scraper.py get_h200_prices: the
fixed monthly-to-hourly conversion constant. -/
def hours_per_month : Nat := 730

/-- The per-row computation of acecloud _extract_from_table: the monthly
instance price divided by the GPU count of the row. -/
def acecloud_per_gpu (gpu_count : Nat) (monthly_price : ℚ) : ℚ :=
  monthly_price / (gpu_count : ℚ)

/-- The normalization tail of acecloud get_h200_prices: average the
per-GPU monthly INR prices, divide by 730 hours per month, multiply by
the live INR to USD rate. -/
def acecloud_hourly_usd (all_prices_inr : List ℚ) (inr_to_usd : ℚ) : ℚ :=
  let avg_inr_monthly := all_prices_inr.sum / (all_prices_inr.length : ℚ)
  let avg_inr_hourly := avg_inr_monthly / (hours_per_month : ℚ)
  avg_inr_hourly * inr_to_usd

end Scrapers

/-!
Helper lemmas shared by several claim theorems.
-/

/-- Rat.floor agrees with the floor of the FloorRing instance on ℚ. -/
theorem ratFloor_eq_intFloor (q : ℚ) : q.floor = ⌊q⌋ := rfl

/-- A malformed record anywhere in the fetched data makes the float()
list comprehension raise. -/
theorem parseFloats_eq_none (data : PushToSupabase.HistData)
    (h : none ∈ data) : PushToSupabase.parseFloats data = none := by
  induction data with
  | nil => cases h
  | cons hd tl ih =>
    cases hd with
    | none => rfl
    | some x =>
      have htl : none ∈ tl := by
        simpa using h
      simp [PushToSupabase.parseFloats, ih htl]

/-- The gate always accepts a missing (None) new price: every branch that
inspects it raises and the handler returns True. -/
theorem validate_price_none (fetch : Except String PushToSupabase.HistData)
    (t : ℚ) : PushToSupabase.validate_price fetch none t = true := by
  unfold PushToSupabase.validate_price
  cases fetch with
  | error e => rfl
  | ok data =>
    by_cases hlen : data.length < 2
    · simp [hlen]
    · cases hp : PushToSupabase.parseFloats data <;> simp [hlen, hp]

/-- push_hyperscaler_prices never touches the snapshot table. -/
theorem push_hyperscaler_prices_indexRows (o : PushToSupabase.ProvOutcome)
    (d : List String) (st : PushToSupabase.DBState) :
    ((PushToSupabase.push_hyperscaler_prices o d st).2).indexRows = st.indexRows := by
  unfold PushToSupabase.push_hyperscaler_prices
  by_cases hd : d.length = 0
  · simp [hd]
  · cases o <;> simp [hd]

/-!
Claim theorems.
-/

/-- C1: validate_price accepts unconditionally with fewer than two
historical records; otherwise it averages the two most recent prices and
accepts iff the new price lies inclusively within 25 percent of that
average; with history 4.00 and 4.20 a new price of 5.00 passes and 5.20
fails. -/
theorem C1_validate_price_bounds (table : PushToSupabase.HistData) (p : ℚ) :
    (table.length < 2 →
      PushToSupabase.validate_price (PushToSupabase.fetchLastTwo table) (some p) (1/4) = true) ∧
    (∀ a b rest, table = some a :: some b :: rest →
      (PushToSupabase.validate_price (PushToSupabase.fetchLastTwo table) (some p) (1/4) = true ↔
        (a + b) / 2 * (1 - 1/4) ≤ p ∧ p ≤ (a + b) / 2 * (1 + 1/4))) ∧
    (PushToSupabase.validate_price
        (PushToSupabase.fetchLastTwo [some 4, some (21/5)]) (some 5) (1/4) = true ∧
      PushToSupabase.validate_price
        (PushToSupabase.fetchLastTwo [some 4, some (21/5)]) (some (26/5)) (1/4) = false) := by
  refine ⟨?_, ?_, ?_, ?_⟩
  · intro h
    simp [PushToSupabase.validate_price, PushToSupabase.fetchLastTwo]
    exact Or.inl h
  · rintro a b rest rfl
    simp [PushToSupabase.validate_price, PushToSupabase.fetchLastTwo,
      PushToSupabase.parseFloats]
  · norm_num [PushToSupabase.validate_price, PushToSupabase.fetchLastTwo,
      PushToSupabase.parseFloats]
  · norm_num [PushToSupabase.validate_price, PushToSupabase.fetchLastTwo,
      PushToSupabase.parseFloats]

/-- C1 witness: with one historical record any price is accepted, and the
concrete bound checks of the claim hold. -/
theorem C1_validate_price_bounds_witness :
    PushToSupabase.validate_price
      (PushToSupabase.fetchLastTwo [some 4]) (some 999) (1/4) = true :=
  (C1_validate_price_bounds [some 4] 999).1 (by norm_num)

/-- C3: the validation gate fails open: an exception while fetching the
history, and a malformed record that makes float() raise, both make
validate_price return accepted. -/
theorem C3_gate_fails_open (e : String) (p : Option ℚ)
    (data : PushToSupabase.HistData) :
    PushToSupabase.validate_price (Except.error e) p (1/4) = true ∧
    (none ∈ data → PushToSupabase.validate_price (Except.ok data) p (1/4) = true) := by
  constructor
  · rfl
  · intro hmem
    unfold PushToSupabase.validate_price
    by_cases hlen : data.length < 2
    · simp [hlen]
    · simp [hlen, parseFloats_eq_none data hmem]

/-- C3 witness: a concrete store failure and a concrete malformed history
both pass the gate. -/
theorem C3_gate_fails_open_witness :
    PushToSupabase.validate_price (Except.error "store unreachable") (some 3) (1/4) = true ∧
    PushToSupabase.validate_price (Except.ok [none, some 4]) (some 3) (1/4) = true :=
  ⟨(C3_gate_fails_open "store unreachable" (some 3) [none, some 4]).1,
   (C3_gate_fails_open "store unreachable" (some 3) [none, some 4]).2 (by simp)⟩

/-- C7: the fee computation fixes the priority fee at 1 gwei and sets
the max fee to twice the larger of the base fee and the priority fee. -/
theorem C7_fee_strategy (base_fee : Nat) :
    (ProviderMarkets._build_dynamic_fee base_fee).2 = 10 ^ 9 ∧
    (ProviderMarkets._build_dynamic_fee base_fee).1 = 2 * max base_fee (10 ^ 9) := by
  unfold ProviderMarkets._build_dynamic_fee
  refine ⟨rfl, ?_⟩
  simp only []
  rcases Nat.le_total base_fee (10 ^ 9) with h | h
  · rw [Nat.max_eq_right (Nat.mul_le_mul_right 2 h), Nat.max_eq_right h]
    omega
  · rw [Nat.max_eq_left (Nat.mul_le_mul_right 2 h), Nat.max_eq_left h]
    omega

/-- C9: acecloud normalization divides the per-GPU monthly price by 730
hours per month and multiplies by the exchange rate; for monthly price
213500, rate 0.012 and GPU count 1 this gives 213500 / 730 * 0.012,
about 3.51 dollars per hour. -/
theorem C9_monthly_conversion :
    (∀ monthly rate : ℚ,
      Scrapers.acecloud_hourly_usd [Scrapers.acecloud_per_gpu 1 monthly] rate
        = monthly / 730 * rate) ∧
    Scrapers.acecloud_hourly_usd [Scrapers.acecloud_per_gpu 1 213500] (12/1000)
      = 213500 / 730 * (12/1000) ∧
    |Scrapers.acecloud_hourly_usd [Scrapers.acecloud_per_gpu 1 213500] (12/1000)
      - 351/100| < 1/100 := by
  refine ⟨?_, ?_, ?_⟩
  · intro monthly rate
    simp [Scrapers.acecloud_hourly_usd, Scrapers.acecloud_per_gpu,
      Scrapers.hours_per_month]
  · norm_num [Scrapers.acecloud_hourly_usd, Scrapers.acecloud_per_gpu,
      Scrapers.hours_per_month]
  · rw [abs_sub_lt_iff]
    constructor <;>
      norm_num [Scrapers.acecloud_hourly_usd, Scrapers.acecloud_per_gpu,
        Scrapers.hours_per_month]

/-- Characterization: a rejected validation short-circuits the push. -/
theorem push_of_validate_false (fetch : Except String PushToSupabase.HistData)
    (idx : PushToSupabase.IndexData) (snap : PushToSupabase.SnapOutcome)
    (prov : PushToSupabase.ProvOutcome) (st : PushToSupabase.DBState)
    (hv : PushToSupabase.validate_price fetch idx.final_index_price (1/4) = false) :
    PushToSupabase.push_to_supabase fetch idx snap prov st = (false, st) := by
  simp only [PushToSupabase.push_to_supabase]
  rw [hv]
  simp

/-- Characterization: an accepted price with a None field among the
formatted ones makes the progress print raise, aborting before any
insert. -/
theorem push_of_format_raises (fetch : Except String PushToSupabase.HistData)
    (idx : PushToSupabase.IndexData) (snap : PushToSupabase.SnapOutcome)
    (prov : PushToSupabase.ProvOutcome) (st : PushToSupabase.DBState)
    (hv : PushToSupabase.validate_price fetch idx.final_index_price (1/4) = true)
    (hfmt : (idx.final_index_price.isSome && idx.hyperscaler_component.isSome
      && idx.neocloud_component.isSome) = false) :
    PushToSupabase.push_to_supabase fetch idx snap prov st = (false, st) := by
  simp only [PushToSupabase.push_to_supabase]
  rw [hv, hfmt]
  simp

/-- Characterization: with validation passed and all formatted fields
present, the push reduces to the snapshot-insert outcome. -/
theorem push_of_ok (fetch : Except String PushToSupabase.HistData)
    (idx : PushToSupabase.IndexData) (snap : PushToSupabase.SnapOutcome)
    (prov : PushToSupabase.ProvOutcome) (st : PushToSupabase.DBState)
    (hv : PushToSupabase.validate_price fetch idx.final_index_price (1/4) = true)
    (hfmt : (idx.final_index_price.isSome && idx.hyperscaler_component.isSome
      && idx.neocloud_component.isSome) = true) :
    PushToSupabase.push_to_supabase fetch idx snap prov st =
      match snap with
      | Except.error _ => (false, st)
      | Except.ok none =>
          (false, { st with indexRows := st.indexRows ++ [idx.final_index_price] })
      | Except.ok (some _) =>
          (true, (PushToSupabase.push_hyperscaler_prices prov idx.hyperscaler_details
            { st with indexRows := st.indexRows ++ [idx.final_index_price] }).2) := by
  simp only [PushToSupabase.push_to_supabase]
  rw [hv, hfmt]
  simp

/-- C2: the snapshot insert happens only after validate_price accepts:
when validation rejects, push_to_supabase returns False and leaves the
store untouched, and any change to the snapshot table implies the gate
returned True. -/
theorem C2_publish_gated (fetch : Except String PushToSupabase.HistData)
    (idx : PushToSupabase.IndexData) (snap : PushToSupabase.SnapOutcome)
    (prov : PushToSupabase.ProvOutcome) (st : PushToSupabase.DBState) :
    (PushToSupabase.validate_price fetch idx.final_index_price (1/4) = false →
      PushToSupabase.push_to_supabase fetch idx snap prov st = (false, st)) ∧
    ((PushToSupabase.push_to_supabase fetch idx snap prov st).2.indexRows ≠ st.indexRows →
      PushToSupabase.validate_price fetch idx.final_index_price (1/4) = true) := by
  constructor
  · intro hv
    exact push_of_validate_false fetch idx snap prov st hv
  · intro hch
    cases hv : PushToSupabase.validate_price fetch idx.final_index_price (1/4) with
    | true => rfl
    | false =>
      exfalso
      apply hch
      rw [push_of_validate_false fetch idx snap prov st hv]

/-- C2 witness: a concrete rejected price (5.20 against history 4.00,
4.20) produces a False result and no row. -/
theorem C2_publish_gated_witness :
    PushToSupabase.push_to_supabase (Except.ok [some 4, some (21/5)])
      ⟨some (26/5), some 1, some 1, ["AWS"]⟩ (Except.ok (some 1)) (Except.ok true)
      ⟨[], 0⟩ = (false, ⟨[], 0⟩) :=
  (C2_publish_gated (Except.ok [some 4, some (21/5)])
      ⟨some (26/5), some 1, some 1, ["AWS"]⟩ (Except.ok (some 1)) (Except.ok true)
      ⟨[], 0⟩).1
    (by norm_num [PushToSupabase.validate_price, PushToSupabase.parseFloats])

/-- C5: the two insert phases are asymmetric: a failed snapshot insert
aborts with nothing written; once the snapshot row is in, the publish
reports success whatever the observation insert did, without rolling the
snapshot back; and observation rows are only ever written in a run that
appended the snapshot row. -/
theorem C5_insert_phases_asymmetric (fetch : Except String PushToSupabase.HistData)
    (idx : PushToSupabase.IndexData) (prov : PushToSupabase.ProvOutcome)
    (st : PushToSupabase.DBState) :
    (∀ msg, PushToSupabase.push_to_supabase fetch idx (Except.error msg) prov st
      = (false, st)) ∧
    (∀ rid : Nat,
      PushToSupabase.validate_price fetch idx.final_index_price (1/4) = true →
      idx.final_index_price.isSome = true →
      idx.hyperscaler_component.isSome = true →
      idx.neocloud_component.isSome = true →
      (PushToSupabase.push_to_supabase fetch idx (Except.ok (some rid)) prov st).1 = true ∧
      (PushToSupabase.push_to_supabase fetch idx (Except.ok (some rid)) prov st).2.indexRows
        = st.indexRows ++ [idx.final_index_price]) ∧
    (∀ snap : PushToSupabase.SnapOutcome,
      (PushToSupabase.push_to_supabase fetch idx snap prov st).2.providerRows
        ≠ st.providerRows →
      (PushToSupabase.push_to_supabase fetch idx snap prov st).2.indexRows
        = st.indexRows ++ [idx.final_index_price]) := by
  refine ⟨?_, ?_, ?_⟩
  · intro msg
    cases hv : PushToSupabase.validate_price fetch idx.final_index_price (1/4) with
    | false => exact push_of_validate_false fetch idx _ prov st hv
    | true =>
      cases hfmt : (idx.final_index_price.isSome && idx.hyperscaler_component.isSome
          && idx.neocloud_component.isSome) with
      | false => exact push_of_format_raises fetch idx _ prov st hv hfmt
      | true => rw [push_of_ok fetch idx _ prov st hv hfmt]
  · intro rid hv h1 h2 h3
    rw [push_of_ok fetch idx _ prov st hv (by rw [h1, h2, h3]; rfl)]
    exact ⟨rfl, by simp [push_hyperscaler_prices_indexRows]⟩
  · intro snap hch
    cases hv : PushToSupabase.validate_price fetch idx.final_index_price (1/4) with
    | false =>
      exfalso; apply hch
      rw [push_of_validate_false fetch idx snap prov st hv]
    | true =>
      cases hfmt : (idx.final_index_price.isSome && idx.hyperscaler_component.isSome
          && idx.neocloud_component.isSome) with
      | false =>
        exfalso; apply hch
        rw [push_of_format_raises fetch idx snap prov st hv hfmt]
      | true =>
        rw [push_of_ok fetch idx snap prov st hv hfmt] at hch ⊢
        cases snap with
        | error msg => exact absurd rfl hch
        | ok v =>
          cases v with
          | none => exact absurd rfl hch
          | some rid => simp [push_hyperscaler_prices_indexRows]

/-- C5 witness: with a good snapshot insert and a failing observation
insert, the publish still succeeds and the snapshot row stays. -/
theorem C5_insert_phases_asymmetric_witness :
    (PushToSupabase.push_to_supabase (Except.ok [some 4, some (21/5)])
      ⟨some 4, some 1, some 1, ["AWS"]⟩ (Except.ok (some 1)) (Except.error "obs insert down")
      ⟨[], 0⟩).1 = true ∧
    (PushToSupabase.push_to_supabase (Except.ok [some 4, some (21/5)])
      ⟨some 4, some 1, some 1, ["AWS"]⟩ (Except.ok (some 1)) (Except.error "obs insert down")
      ⟨[], 0⟩).2.indexRows = ([] : List (Option ℚ)) ++ [some 4] :=
  (C5_insert_phases_asymmetric (Except.ok [some 4, some (21/5)])
      ⟨some 4, some 1, some 1, ["AWS"]⟩ (Except.error "obs insert down") ⟨[], 0⟩).2.1 1
    (by norm_num [PushToSupabase.validate_price, PushToSupabase.parseFloats])
    (by simp) (by simp) (by simp)

/-- C10 counterexample: with two good history records and a missing
final_index_price, the gate does accept (fail-open on the None
comparison), but push_to_supabase does not insert a null-price snapshot
row: formatting the None price for the progress log raises inside the
outer try, so the push returns False and the store stays empty,
contradicting the claim that a snapshot row with null index_price is
published. -/
theorem C10_null_insert_counterexample :
    PushToSupabase.validate_price (Except.ok [some 4, some (21/5)]) none (1/4) = true ∧
    PushToSupabase.push_to_supabase (Except.ok [some 4, some (21/5)])
      ⟨none, some 1, some 1, ["AWS"]⟩ (Except.ok (some 1)) (Except.ok true) ⟨[], 0⟩
      = (false, ⟨[], 0⟩) := by
  constructor
  · exact validate_price_none (Except.ok [some 4, some (21/5)]) (1/4)
  · norm_num [PushToSupabase.push_to_supabase, PushToSupabase.validate_price,
      PushToSupabase.parseFloats]

/-- C10 amended: when final_index_price is missing, validate_price does
return accepted through its fail-open handler, but push_to_supabase
returns False without inserting any row, because formatting the None
price for the progress output raises before the insert and is caught by
the outer handler. -/
theorem C10_null_price_not_inserted (fetch : Except String PushToSupabase.HistData)
    (idx : PushToSupabase.IndexData) (snap : PushToSupabase.SnapOutcome)
    (prov : PushToSupabase.ProvOutcome) (st : PushToSupabase.DBState)
    (hnone : idx.final_index_price = none) :
    PushToSupabase.validate_price fetch idx.final_index_price (1/4) = true ∧
    PushToSupabase.push_to_supabase fetch idx snap prov st = (false, st) := by
  constructor
  · rw [hnone]
    exact validate_price_none fetch (1/4)
  · refine push_of_format_raises fetch idx snap prov st ?_ ?_
    · rw [hnone]
      exact validate_price_none fetch (1/4)
    · rw [hnone]
      rfl

/-- C10 witness: a concrete run with a missing final_index_price passes
the gate yet writes nothing and reports failure. -/
theorem C10_null_price_not_inserted_witness :
    PushToSupabase.validate_price (Except.error "no fetch") none (1/4) = true ∧
    PushToSupabase.push_to_supabase (Except.error "no fetch")
      ⟨none, some 1, some 1, ["AWS"]⟩ (Except.ok (some 1)) (Except.ok true) ⟨[], 0⟩
      = (false, ⟨[], 0⟩) :=
  C10_null_price_not_inserted (Except.error "no fetch")
    ⟨none, some 1, some 1, ["AWS"]⟩ (Except.ok (some 1)) (Except.ok true) ⟨[], 0⟩ rfl

/-- C4 counterexample: a confirmed transaction whose receipt status is 0
(non-success) is still returned as a success by update_single_price: the
status is only printed, never turned into a failure for the caller. -/
theorem C4_status_ignored_counterexample :
    ProviderMarkets.update_single_price "AWS" (53/20)
      (ProviderMarkets.WaitOutcome.confirmed ⟨0, 21000⟩) "0xabc"
      = Except.ok ("0xabc",
          ProviderMarkets.OracleCall.single
            "0xb377854a672b5274c99b24e7fe27d9661c60c8b697ca4f974208162655716b3e"
            2650000000000000000 100000) := by
  simp [ProviderMarkets.update_single_price, ProviderMarkets._send_transaction,
    ProviderMarkets.H200_PROVIDERS, List.lookup, ProviderMarkets.pyInt,
    ProviderMarkets.PRICE_DECIMALS, ratFloor_eq_intFloor]
  norm_num

/-- C4 amended: the publisher blocks in wait_for_transaction_receipt
with a 180-second limit; a timeout raises and reaches the caller as a
failure, while a confirmed transaction is returned as a success carrying
the hash whatever its receipt status: a non-success status is only
logged, not reported as a failure. -/
theorem C4_timeout_reported_status_logged (provider assetId : String)
    (price_usd : ℚ) (txHash : String) (r : ProviderMarkets.TxReceipt)
    (hk : ProviderMarkets.H200_PROVIDERS.lookup provider = some assetId) :
    ProviderMarkets.tx_receipt_timeout_seconds = 180 ∧
    ProviderMarkets.update_single_price provider price_usd
      ProviderMarkets.WaitOutcome.timeout txHash = Except.error "TimeExhausted" ∧
    ProviderMarkets.update_single_price provider price_usd
      (ProviderMarkets.WaitOutcome.confirmed r) txHash
      = Except.ok (txHash,
          ProviderMarkets.OracleCall.single assetId
            (ProviderMarkets.pyInt (price_usd * 10 ^ ProviderMarkets.PRICE_DECIMALS))
            100000) := by
  refine ⟨rfl, ?_, ?_⟩ <;>
    simp [ProviderMarkets.update_single_price, ProviderMarkets._send_transaction, hk]

/-- C4 witness: the amended behavior at a concrete provider, price and
receipt. -/
theorem C4_timeout_reported_status_logged_witness :
    ProviderMarkets.tx_receipt_timeout_seconds = 180 ∧
    ProviderMarkets.update_single_price "AWS" (53/20)
      ProviderMarkets.WaitOutcome.timeout "0xabc" = Except.error "TimeExhausted" ∧
    ProviderMarkets.update_single_price "AWS" (53/20)
      (ProviderMarkets.WaitOutcome.confirmed ⟨1, 60000⟩) "0xabc"
      = Except.ok ("0xabc",
          ProviderMarkets.OracleCall.single
            "0xb377854a672b5274c99b24e7fe27d9661c60c8b697ca4f974208162655716b3e"
            (ProviderMarkets.pyInt ((53/20) * 10 ^ ProviderMarkets.PRICE_DECIMALS))
            100000) :=
  C4_timeout_reported_status_logged "AWS"
    "0xb377854a672b5274c99b24e7fe27d9661c60c8b697ca4f974208162655716b3e"
    (53/20) "0xabc" ⟨1, 60000⟩ (by simp [ProviderMarkets.H200_PROVIDERS, List.lookup])

/-- When every provider of the list is known, the building loop of
batch_update_prices succeeds with one entry per input pair in order. -/
theorem buildBatchArrays_known :
    ∀ pairs : List (String × ℚ),
      (∀ pr ∈ pairs, (ProviderMarkets.H200_PROVIDERS.lookup pr.1).isSome = true) →
      ProviderMarkets.buildBatchArrays pairs
        = Except.ok
            (pairs.map fun pr => (ProviderMarkets.H200_PROVIDERS.lookup pr.1).getD "",
             pairs.map fun pr =>
               ProviderMarkets.pyInt (pr.2 * 10 ^ ProviderMarkets.PRICE_DECIMALS)) := by
  intro pairs
  induction pairs with
  | nil => intro _; rfl
  | cons hd tl ih =>
    intro hall
    obtain ⟨provider, price⟩ := hd
    have hhd := hall (provider, price) (List.mem_cons_self _ _)
    obtain ⟨assetId, haid⟩ := Option.isSome_iff_exists.mp hhd
    have htl : ∀ pr ∈ tl, (ProviderMarkets.H200_PROVIDERS.lookup pr.1).isSome = true :=
      fun pr hpr => hall pr (List.mem_cons_of_mem _ hpr)
    simp only [ProviderMarkets.buildBatchArrays, haid, ih htl, List.map_cons]
    simp [haid]

/-- C6: with a nonempty set of known provider/price pairs, exactly one
pair goes through the single updatePrice path and two or more go through
batchUpdatePrices with two parallel arrays of equal length, one entry
per input pair. -/
theorem C6_batch_vs_single (pairs : List (String × ℚ)) (txHash : String)
    (r : ProviderMarkets.TxReceipt)
    (hall : ∀ pr ∈ pairs, (ProviderMarkets.H200_PROVIDERS.lookup pr.1).isSome = true) :
    (∀ provider price_usd, pairs = [(provider, price_usd)] →
      ProviderMarkets.executeUpdate pairs (ProviderMarkets.WaitOutcome.confirmed r) txHash
        = Except.ok (txHash,
            ProviderMarkets.OracleCall.single
              ((ProviderMarkets.H200_PROVIDERS.lookup provider).getD "")
              (ProviderMarkets.pyInt (price_usd * 10 ^ ProviderMarkets.PRICE_DECIMALS))
              100000)) ∧
    (2 ≤ pairs.length →
      ProviderMarkets.executeUpdate pairs (ProviderMarkets.WaitOutcome.confirmed r) txHash
        = Except.ok (txHash,
            ProviderMarkets.OracleCall.batch
              (pairs.map fun pr => (ProviderMarkets.H200_PROVIDERS.lookup pr.1).getD "")
              (pairs.map fun pr =>
                ProviderMarkets.pyInt (pr.2 * 10 ^ ProviderMarkets.PRICE_DECIMALS))
              (50000 + pairs.length * 30000)) ∧
      (pairs.map fun pr => (ProviderMarkets.H200_PROVIDERS.lookup pr.1).getD "").length
        = pairs.length ∧
      (pairs.map fun pr =>
        ProviderMarkets.pyInt (pr.2 * 10 ^ ProviderMarkets.PRICE_DECIMALS)).length
        = pairs.length) := by
  constructor
  · rintro provider price_usd rfl
    have hhd := hall (provider, price_usd) (List.mem_cons_self _ _)
    obtain ⟨assetId, haid⟩ := Option.isSome_iff_exists.mp hhd
    simp [ProviderMarkets.executeUpdate, ProviderMarkets.update_single_price,
      ProviderMarkets._send_transaction, haid]
  · intro hlen
    have hne : ¬ pairs.length = 1 := by omega
    refine ⟨?_, by simp, by simp⟩
    simp only [ProviderMarkets.executeUpdate, hne, if_false,
      ProviderMarkets.batch_update_prices, buildBatchArrays_known pairs hall,
      ProviderMarkets._send_transaction]
    simp

/-- C6 witness: two known pairs take the batched path with parallel
arrays of length two. -/
theorem C6_batch_vs_single_witness :
    ProviderMarkets.executeUpdate [("ORACLE", 3), ("AWS", 2)]
      (ProviderMarkets.WaitOutcome.confirmed ⟨1, 60000⟩) "0xdef"
      = Except.ok ("0xdef",
          ProviderMarkets.OracleCall.batch
            (([("ORACLE", (3:ℚ)), ("AWS", 2)]).map fun pr =>
              (ProviderMarkets.H200_PROVIDERS.lookup pr.1).getD "")
            (([("ORACLE", (3:ℚ)), ("AWS", 2)]).map fun pr =>
              ProviderMarkets.pyInt (pr.2 * 10 ^ ProviderMarkets.PRICE_DECIMALS))
            (50000 + ([("ORACLE", (3:ℚ)), ("AWS", 2)]).length * 30000)) :=
  ((C6_batch_vs_single [("ORACLE", 3), ("AWS", 2)] "0xdef" ⟨1, 60000⟩
      (by simp [ProviderMarkets.H200_PROVIDERS, List.lookup])).2 (by simp)).1

/-- C8 counterexample: the boundary value is not plausible: a parsed
price of exactly 5 (the gcp lower bound) and of exactly 10 (the
hyperbolic upper bound) are rejected by the respective _validate_prices,
although both satisfy the closed-interval condition lower <= v <= upper
stated by the claim. -/
theorem C8_boundary_counterexample :
    Scrapers.gcp_validate_prices [⟨false, some 5⟩] = false ∧
    Scrapers.hyperbolic_validate_prices [⟨false, some 10⟩] = false ∧
    ((5:ℚ) ≤ 5 ∧ (5:ℚ) ≤ 25 ∧ (1:ℚ) ≤ 10 ∧ (10:ℚ) ≤ 10) := by
  refine ⟨?_, ?_, by norm_num⟩
  · norm_num [Scrapers.gcp_validate_prices]
  · norm_num [Scrapers.hyperbolic_validate_prices]

/-- C8 amended: the plausibility predicate is an open interval: a price
dictionary validates iff some non-Error entry parses to a value strictly
between the bounds (5 and 25 for gcp, 1 and 10 for hyperbolic), and when
every parsed value lies on or outside the gcp bounds the method result
is discarded exactly like a not-found outcome. -/
theorem C8_open_interval (prices : List Scrapers.PriceEntry) :
    (Scrapers.gcp_validate_prices prices = true ↔
      ∃ e ∈ prices, e.variantHasError = false ∧
        ∃ p : ℚ, e.parsed = some p ∧ 5 < p ∧ p < 25) ∧
    (Scrapers.hyperbolic_validate_prices prices = true ↔
      ∃ e ∈ prices, e.variantHasError = false ∧
        ∃ p : ℚ, e.parsed = some p ∧ 1 < p ∧ p < 10) ∧
    ((∀ e ∈ prices, ∀ p : ℚ, e.parsed = some p → p ≤ 5 ∨ 25 ≤ p) →
      Scrapers.gcp_method_accepts prices = false) := by
  have hgcp : Scrapers.gcp_validate_prices prices = true ↔
      ∃ e ∈ prices, e.variantHasError = false ∧
        ∃ p : ℚ, e.parsed = some p ∧ 5 < p ∧ p < 25 := by
    unfold Scrapers.gcp_validate_prices
    rw [List.any_eq_true]
    constructor
    · rintro ⟨e, he, hpred⟩
      refine ⟨e, he, ?_⟩
      cases hparsed : e.parsed with
      | none => rw [hparsed] at hpred; simp at hpred
      | some p =>
        rw [hparsed] at hpred
        simp only [Bool.and_eq_true, Bool.not_eq_true', decide_eq_true_eq] at hpred
        exact ⟨hpred.1, p, rfl, hpred.2.1, hpred.2.2⟩
    · rintro ⟨e, he, herr, p, hparsed, hlo, hhi⟩
      refine ⟨e, he, ?_⟩
      rw [hparsed, herr]
      simpa using ⟨hlo, hhi⟩
  refine ⟨hgcp, ?_, ?_⟩
  · unfold Scrapers.hyperbolic_validate_prices
    rw [List.any_eq_true]
    constructor
    · rintro ⟨e, he, hpred⟩
      refine ⟨e, he, ?_⟩
      cases hparsed : e.parsed with
      | none => rw [hparsed] at hpred; simp at hpred
      | some p =>
        rw [hparsed] at hpred
        simp only [Bool.and_eq_true, Bool.not_eq_true', decide_eq_true_eq] at hpred
        exact ⟨hpred.1, p, rfl, hpred.2.1, hpred.2.2⟩
    · rintro ⟨e, he, herr, p, hparsed, hlo, hhi⟩
      refine ⟨e, he, ?_⟩
      rw [hparsed, herr]
      simpa using ⟨hlo, hhi⟩
  · intro hout
    unfold Scrapers.gcp_method_accepts
    cases hval : Scrapers.gcp_validate_prices prices with
    | false => simp
    | true =>
      exfalso
      obtain ⟨e, he, _herr, p, hparsed, hlo, hhi⟩ := hgcp.mp hval
      rcases hout e he p hparsed with h | h
      · exact absurd hlo (not_lt.mpr h)
      · exact absurd hhi (not_lt.mpr h)

/-- C8 witness: a raw value of 55 (an instance price misread, outside
the per-GPU range) never yields an accepted method result. -/
theorem C8_open_interval_witness :
    Scrapers.gcp_method_accepts [⟨false, some 55⟩] = false :=
  (C8_open_interval [⟨false, some 55⟩]).2.2
    (by
      rintro e he p hp
      simp only [List.mem_singleton] at he
      subst he
      simp only [Option.some.injEq] at hp
      subst hp
      norm_num)
